import Mathlib

/-!
Shallow embedding of the Gunpey puzzle core (repository `Velfi/gunpey`).

Each definition translates one Rust item from `src/`:
  * `src/line_fragment.rs` — `LineFragmentKind`, `LineFragment`
  * `src/cell.rs`          — `Cell` and `Cell.is_connected_to`
  * `src/adjacency.rs`     — `Adjacency`, `are_line_fragments_connecting`,
                             `adjacency_of_grid_positions`
  * `src/grid_pos.rs`      — `GridPos`
  * `src/grid_algorithms.rs` — `grid_pos_to_corner_nodes`
  * `src/grid.rs`          — `Grid` and its operations, including
                             `recalculate_active_cells`

Rust `usize` indices are `Nat`; `isize` coordinates are `Int`.  A Rust
panic (`unwrap!`/`unreachable!`) is modelled by an `Option` result where a
claim depends on it, and by a default value (`Cell.Empty`, `false`) at the
`unwrap` sites inside `recalculate_active_cells`, which are only reached
with in-bounds positions on well-formed grids (see the comments there).
-/

namespace Gunpey

/-- `LineFragmentKind` from `src/line_fragment.rs`. -/
inductive LineFragmentKind where
  | Caret
  | InvertedCaret
  | LeftSlash
  | RightSlash
deriving DecidableEq, Fintype, Repr

/-- `LineFragment` from `src/line_fragment.rs`: a kind plus an activation flag. -/
structure LineFragment where
  kind : LineFragmentKind
  is_active : Bool
deriving DecidableEq, Repr

/-- `Cell` from `src/cell.rs`. -/
inductive Cell where
  | Filled (lf : LineFragment)
  | Empty
deriving DecidableEq, Repr

/-- `Adjacency` from `src/adjacency.rs`. -/
inductive Adjacency where
  | AboveLeft
  | Above
  | AboveRight
  | Left
  | Same
  | Right
  | BelowLeft
  | Below
  | BelowRight
  | NotAdjacent
deriving DecidableEq, Fintype, Repr

/-- `GridPos` from `src/grid_pos.rs` (field order `y`, `x` as in the source). -/
structure GridPos where
  y : Int
  x : Int
deriving DecidableEq, Repr

/-- `gp` helper from `src/grid_pos.rs`: `gp(x, y)`. -/
def gp (x y : Int) : GridPos := ⟨y, x⟩

instance : Add GridPos := ⟨fun a b => ⟨a.y + b.y, a.x + b.x⟩⟩

instance : Sub GridPos := ⟨fun a b => ⟨a.y - b.y, a.x - b.x⟩⟩

/-- `are_line_fragments_connecting` from `src/adjacency.rs:7-71`, the
standalone fragment-level compatibility predicate. -/
def are_line_fragments_connecting (lf_a : LineFragment) (adjacency : Adjacency)
    (lf_b : LineFragment) : Bool :=
  open Adjacency LineFragmentKind in
  if adjacency = Same then true
  else if adjacency = NotAdjacent then false
  else
    match lf_a.kind with
    | Caret =>
      if adjacency = AboveLeft ∨ adjacency = Above ∨ adjacency = AboveRight then false
      else
        match lf_b.kind with
        | Caret => [Left, Right].contains adjacency
        | InvertedCaret => [BelowLeft, Below, BelowRight].contains adjacency
        | LeftSlash => [Left, Below, BelowRight].contains adjacency
        | RightSlash => [Right, Below, BelowLeft].contains adjacency
    | InvertedCaret =>
      if adjacency = BelowLeft ∨ adjacency = Below ∨ adjacency = BelowRight then false
      else
        match lf_b.kind with
        | Caret => [AboveLeft, Above, AboveRight].contains adjacency
        | InvertedCaret => [Left, Right].contains adjacency
        | LeftSlash => [Right, Above, AboveLeft].contains adjacency
        | RightSlash => [Left, Above, AboveRight].contains adjacency
    | LeftSlash =>
      if adjacency = BelowLeft ∨ adjacency = AboveRight then false
      else
        match lf_b.kind with
        | Caret => [AboveLeft, Above, Right].contains adjacency
        | InvertedCaret => [Left, Below, BelowRight].contains adjacency
        | LeftSlash => [AboveLeft, BelowRight].contains adjacency
        | RightSlash => [Left, Right, Above, Below].contains adjacency
    | RightSlash =>
      if adjacency = AboveLeft ∨ adjacency = BelowRight then false
      else
        match lf_b.kind with
        | Caret => [AboveRight, Above, Left].contains adjacency
        | InvertedCaret => [Right, Below, BelowLeft].contains adjacency
        | LeftSlash => [Left, Right, Above, Below].contains adjacency
        | RightSlash => [AboveRight, BelowLeft].contains adjacency

/-- `adjacency_of_grid_positions` from `src/adjacency.rs:73-86`: the direction
of `gp_b` relative to `gp_a`, computed from the delta `gp_a - gp_b`. -/
def adjacency_of_grid_positions (gp_a gp_b : GridPos) : Adjacency :=
  let d := gp_a - gp_b
  if d.x = 0 ∧ d.y = 0 then .Same
  else if d.x = 1 ∧ d.y = -1 then .AboveLeft
  else if d.x = 0 ∧ d.y = -1 then .Above
  else if d.x = -1 ∧ d.y = -1 then .AboveRight
  else if d.x = -1 ∧ d.y = 0 then .Right
  else if d.x = -1 ∧ d.y = 1 then .BelowRight
  else if d.x = 0 ∧ d.y = 1 then .Below
  else if d.x = 1 ∧ d.y = 1 then .BelowLeft
  else if d.x = 1 ∧ d.y = 0 then .Left
  else .NotAdjacent

/-- `Cell::is_connected_to` from `src/cell.rs:58-146`, the cell-level
compatibility predicate used by `Grid::recalculate_active_cells`.
The source's `unreachable!` on `Adjacency::Same` for two filled cells
(a panic) is modelled as `none`; every other case is `some` of the
source's boolean.  The match arms below transcribe the source arms in
order. -/
def Cell.is_connected_to (self other : Cell) (adjacency : Adjacency) : Option Bool :=
  open Adjacency LineFragmentKind in
  match self, other with
  | Cell.Empty, _ => some false
  | _, Cell.Empty => some false
  | Cell.Filled lf_a, Cell.Filled lf_b =>
    match lf_a.kind, lf_b.kind, adjacency with
    | _, _, Same => none
    | _, _, NotAdjacent => some false
    | Caret, _, AboveLeft | Caret, _, Above | Caret, _, AboveRight => some false
    | Caret, Caret, _ => some false
    | Caret, InvertedCaret, Below
    | Caret, InvertedCaret, BelowLeft
    | Caret, InvertedCaret, BelowRight => some true
    | Caret, InvertedCaret, Left | Caret, InvertedCaret, Right => some false
    | Caret, LeftSlash, Below
    | Caret, LeftSlash, BelowRight
    | Caret, LeftSlash, Left => some true
    | Caret, LeftSlash, BelowLeft | Caret, LeftSlash, Right => some false
    | Caret, RightSlash, Below
    | Caret, RightSlash, BelowLeft
    | Caret, RightSlash, Right => some true
    | Caret, RightSlash, Left | Caret, RightSlash, BelowRight => some false
    | InvertedCaret, _, BelowLeft
    | InvertedCaret, _, Below
    | InvertedCaret, _, BelowRight => some false
    | InvertedCaret, InvertedCaret, _ => some false
    | InvertedCaret, Caret, Above
    | InvertedCaret, Caret, AboveLeft
    | InvertedCaret, Caret, AboveRight => some true
    | InvertedCaret, Caret, Left | InvertedCaret, Caret, Right => some false
    | InvertedCaret, LeftSlash, Above
    | InvertedCaret, LeftSlash, AboveRight
    | InvertedCaret, LeftSlash, Left => some true
    | InvertedCaret, LeftSlash, AboveLeft | InvertedCaret, LeftSlash, Right => some false
    | InvertedCaret, RightSlash, Above
    | InvertedCaret, RightSlash, AboveLeft
    | InvertedCaret, RightSlash, Right => some true
    | InvertedCaret, RightSlash, Left | InvertedCaret, RightSlash, AboveRight => some false
    | LeftSlash, _, BelowLeft | LeftSlash, _, AboveRight => some false
    | LeftSlash, Caret, Above
    | LeftSlash, Caret, AboveLeft
    | LeftSlash, Caret, Right => some true
    | LeftSlash, Caret, Below
    | LeftSlash, Caret, Left
    | LeftSlash, Caret, BelowRight => some false
    | LeftSlash, InvertedCaret, Below
    | LeftSlash, InvertedCaret, BelowRight
    | LeftSlash, InvertedCaret, Left => some true
    | LeftSlash, InvertedCaret, Above
    | LeftSlash, InvertedCaret, AboveLeft
    | LeftSlash, InvertedCaret, Right => some false
    | LeftSlash, LeftSlash, AboveLeft | LeftSlash, LeftSlash, BelowRight => some true
    | LeftSlash, LeftSlash, _ => some false
    | LeftSlash, RightSlash, Above
    | LeftSlash, RightSlash, Below
    | LeftSlash, RightSlash, Left
    | LeftSlash, RightSlash, Right => some true
    | LeftSlash, RightSlash, AboveLeft | LeftSlash, RightSlash, BelowRight => some false
    | RightSlash, _, AboveLeft | RightSlash, _, BelowRight => some false
    | RightSlash, Caret, Above
    | RightSlash, Caret, AboveRight
    | RightSlash, Caret, Left => some true
    | RightSlash, Caret, Below
    | RightSlash, Caret, BelowLeft
    | RightSlash, Caret, Right => some false
    | RightSlash, InvertedCaret, Below
    | RightSlash, InvertedCaret, BelowLeft
    | RightSlash, InvertedCaret, Right => some true
    | RightSlash, InvertedCaret, Above
    | RightSlash, InvertedCaret, Left
    | RightSlash, InvertedCaret, AboveRight => some false
    | RightSlash, LeftSlash, Above
    | RightSlash, LeftSlash, Below
    | RightSlash, LeftSlash, Left
    | RightSlash, LeftSlash, Right => some true
    | RightSlash, LeftSlash, AboveRight | RightSlash, LeftSlash, BelowLeft => some false
    | RightSlash, RightSlash, BelowLeft | RightSlash, RightSlash, AboveRight => some true
    | RightSlash, RightSlash, _ => some false

/-- The eight compass directions (excludes `Same` and `NotAdjacent`). -/
def Adjacency.isCompass : Adjacency → Bool
  | .Same => false
  | .NotAdjacent => false
  | _ => true

/-- Direction reversal on compass adjacencies, as the claims state it:
swaps `Left`/`Right`, `Above`/`Below`, `AboveLeft`/`BelowRight`,
`AboveRight`/`BelowLeft`; fixes `Same` and `NotAdjacent`. -/
def Adjacency.opposite : Adjacency → Adjacency
  | .AboveLeft => .BelowRight
  | .Above => .Below
  | .AboveRight => .BelowLeft
  | .Left => .Right
  | .Same => .Same
  | .Right => .Left
  | .BelowLeft => .AboveRight
  | .Below => .Above
  | .BelowRight => .AboveLeft
  | .NotAdjacent => .NotAdjacent

/-- The cell-relative offset of the cell reached by moving in a compass
direction (`x` to the right, `y` upward); `none` for `Same`/`NotAdjacent`. -/
def spec_compass_offset : Adjacency → Option (Int × Int)
  | .AboveLeft => some (-1, 1)
  | .Above => some (0, 1)
  | .AboveRight => some (1, 1)
  | .Left => some (-1, 0)
  | .Same => none
  | .Right => some (1, 0)
  | .BelowLeft => some (-1, -1)
  | .Below => some (0, -1)
  | .BelowRight => some (1, -1)
  | .NotAdjacent => none

/-- Written from the spec's words, for comparison with the source
predicates: the corners of its cell a shape touches, as offsets from the
cell's bottom-left corner (`(0,0)` bottom-left, `(1,0)` bottom-right,
`(0,1)` top-left, `(1,1)` top-right).  "Caret touches the two *bottom*
corners of its cell", InvertedCaret the two top corners, LeftSlash
top-left and bottom-right, RightSlash top-right and bottom-left. -/
def spec_touched_corners : LineFragmentKind → List (Int × Int)
  | .Caret => [(0, 0), (1, 0)]
  | .InvertedCaret => [(0, 1), (1, 1)]
  | .LeftSlash => [(0, 1), (1, 0)]
  | .RightSlash => [(1, 1), (0, 0)]

/-- Written from the spec's words, for comparison with the source
predicates: "Two shapes connect across direction D iff shape A has a
touched corner on the edge/corner facing D and shape B has a touched
corner at the corresponding opposite-facing corner, and these are
literally the same geometric point."  With B's cell at the compass offset
of D from A's cell, a corner `ca` of A and a corner `cb` of B are the same
geometric point iff `ca = cb + offset D`. -/
def spec_corner_connects (a : LineFragmentKind) (d : Adjacency)
    (b : LineFragmentKind) : Bool :=
  match spec_compass_offset d with
  | none => false
  | some (dx, dy) =>
    (spec_touched_corners a).any fun ca =>
      (spec_touched_corners b).any fun cb =>
        ca.1 = cb.1 + dx ∧ ca.2 = cb.2 + dy

/-! ## Cells (`src/cell.rs`) -/

/-- `Cell::is_empty` from `src/cell.rs:12-14`. -/
def Cell.is_empty (self : Cell) : Bool := self = Cell.Empty

/-- `Cell::is_active` from `src/cell.rs:16-21`. -/
def Cell.is_active : Cell → Bool
  | Cell.Filled lf => lf.is_active
  | Cell.Empty => false

/-- `Cell::activate` from `src/cell.rs:40-47` (a no-op on `Empty`). -/
def Cell.activate : Cell → Cell
  | Cell.Filled lf => Cell.Filled { lf with is_active := true }
  | Cell.Empty => Cell.Empty

/-- `Cell::deactivate` from `src/cell.rs:49-56` (a no-op on `Empty`). -/
def Cell.deactivate : Cell → Cell
  | Cell.Filled lf => Cell.Filled { lf with is_active := false }
  | Cell.Empty => Cell.Empty

/-- The kind stored in a cell (`none` for `Empty`): the cell's contents up
to the activation flag. -/
def Cell.kindOf : Cell → Option LineFragmentKind
  | Cell.Filled lf => some lf.kind
  | Cell.Empty => none

/-- `LineFragment::from_str` from `src/line_fragment.rs:77-92` (the
unrecognized-string panic is not modelled; no use below reaches it). -/
def LineFragment.from_str (lf_str : String) : LineFragment :=
  if lf_str = "C" then ⟨.Caret, true⟩
  else if lf_str = "c" then ⟨.Caret, false⟩
  else if lf_str = "I" then ⟨.InvertedCaret, true⟩
  else if lf_str = "i" then ⟨.InvertedCaret, false⟩
  else if lf_str = "L" then ⟨.LeftSlash, true⟩
  else if lf_str = "l" then ⟨.LeftSlash, false⟩
  else if lf_str = "R" then ⟨.RightSlash, true⟩
  else ⟨.RightSlash, false⟩

/-- Modelled from the spec: `Cell::from_str` is called by
`Grid::new_from_str` (`src/grid.rs:53`) and by tests but its definition is
missing from `src/` (`src/cell.rs` only defines `from_char`).  Per spec §6
a textual layout maps `.` to an empty cell and one character per fragment
shape/activation-state pair; the letter codes are those of
`LineFragment::from_str`, the shape symbols `∧ ∨ \ /` those of
`LineFragmentKind::from_char` (entering inactive, as `LineFragment::from_char`
does).  Unrecognized strings (a fixture error that may abort, spec §7) are
not modelled; no use below reaches one. -/
def Cell.from_str (s : String) : Cell :=
  if s = "." then Cell.Empty
  else if s = "∧" then Cell.Filled ⟨.Caret, false⟩
  else if s = "∨" then Cell.Filled ⟨.InvertedCaret, false⟩
  else if s = "\\" then Cell.Filled ⟨.LeftSlash, false⟩
  else if s = "/" then Cell.Filled ⟨.RightSlash, false⟩
  else Cell.Filled (LineFragment.from_str s)

/-- `grid_pos_to_corner_nodes` from `src/grid_algorithms.rs:80-97`: the two
corner-node coordinates spanned by a fragment of the given kind in the cell
at `grid_pos`. -/
def grid_pos_to_corner_nodes (grid_pos : GridPos) (kind : LineFragmentKind) :
    GridPos × GridPos :=
  (match kind with
   | .Caret => grid_pos
   | .InvertedCaret => grid_pos + gp 0 1
   | .LeftSlash => grid_pos + gp 0 1
   | .RightSlash => grid_pos,
   match kind with
   | .Caret => grid_pos + gp 1 0
   | .InvertedCaret => grid_pos + gp 1 1
   | .LeftSlash => grid_pos + gp 1 0
   | .RightSlash => grid_pos + gp 1 1)

/-- Modelled from the spec: `Cell::corner_nodes` is called by
`Grid::recalculate_active_cells` (`src/grid.rs:364,666`) but its definition
is missing from `src/`.  Per spec §4.2 a filled cell's fragment spans the
two corner nodes of `grid_pos_to_corner_nodes` (which is in
`src/grid_algorithms.rs` and transcribes the same table), and per spec §3
"an `Empty` cell has no corner nodes". -/
def Cell.corner_nodes (self : Cell) (cell_pos : GridPos) : List GridPos :=
  match self with
  | Cell.Filled lf =>
    let cn := grid_pos_to_corner_nodes cell_pos lf.kind
    [cn.1, cn.2]
  | Cell.Empty => []

/-- Modelled from the spec: `Cell::has_corner_node` is called by
`Grid::node_connects_across_cell` (`src/grid.rs:663`) but is missing from
`src/`; it tests whether `node_pos` is one of the cell's corner nodes. -/
def Cell.has_corner_node (self : Cell) (cell_pos node_pos : GridPos) : Bool :=
  (self.corner_nodes cell_pos).contains node_pos

/-! ## Errors (`src/error.rs`)

`src/error.rs` declares `CantSwapBadIndex`/`CantSwapBadPosition` with
named fields (including `length`/`width`/`height`), but `src/grid.rs`
constructs them with two positional arguments; the variants below follow
the call sites in `src/grid.rs`. -/

/-- `GunpeyLibError` from `src/error.rs`, with constructor arities as used
in `src/grid.rs`. -/
inductive GunpeyLibError where
  | CantSwapBadIndex (a b : Nat)
  | CantSwapSameIndex (a b : Nat)
  | CantSwapBadPosition (a b : GridPos)
  | CantSwapSamePositon (a b : GridPos)
  | InvalidRowLength (got expected : Nat)
deriving DecidableEq, Repr

/-! ## Grid (`src/grid.rs`) -/

/-- `Grid` from `src/grid.rs:17-22`: `width × height` dimensions and a
row-major cell list with row 0 at the bottom. -/
structure Grid where
  width : Nat
  height : Nat
  cells : List Cell
deriving DecidableEq, Repr

/-- `get_pos_from_index` from `src/grid.rs:799-804`. -/
def get_pos_from_index (index width : Nat) : GridPos :=
  gp (index % width : Nat) (index / width : Nat)

/-- `Grid::get_index_from_pos` from `src/grid.rs:165-171`: the linear index
`x + width * y`, accepted iff it falls in `0 .. cells.len()`.  (Note the
source never compares `x` against `width`.) -/
def Grid.get_index_from_pos (g : Grid) (p : GridPos) : Option Nat :=
  let i : Int := p.x + (g.width : Int) * p.y
  if 0 ≤ i ∧ i < (g.cells.length : Int) then some i.toNat else none

/-- `Grid::get_cell_at_pos` from `src/grid.rs:152-155`. -/
def Grid.get_cell_at_pos (g : Grid) (p : GridPos) : Option Cell :=
  (g.get_index_from_pos p).bind fun i => g.cells.get? i

/-- `Grid::new` from `src/grid.rs:28-40` (the `assert!`s on the dimensions
are construction preconditions, not modelled). -/
def Grid.new (width height : Nat) : Grid :=
  ⟨width, height, List.replicate (width * height) Cell.Empty⟩

/-- `Grid::below` from `src/grid.rs:725-734`. -/
def Grid.below (_g : Grid) (p : GridPos) : Option GridPos :=
  if p.y = 0 then none else some { p with y := p.y - 1 }

/-- `Grid::above` from `src/grid.rs:736-745`. -/
def Grid.above (g : Grid) (p : GridPos) : Option GridPos :=
  if p.y = (g.height : Int) - 1 then none else some { p with y := p.y + 1 }

/-- `Grid::right` from `src/grid.rs:747-756`. -/
def Grid.right (g : Grid) (p : GridPos) : Option GridPos :=
  if p.x = (g.width : Int) - 1 then none else some { p with x := p.x + 1 }

/-- `Grid::left` from `src/grid.rs:758-767`. -/
def Grid.left (_g : Grid) (p : GridPos) : Option GridPos :=
  if p.x = 0 then none else some { p with x := p.x - 1 }

/-- `Grid::above_right` from `src/grid.rs:769-771`. -/
def Grid.above_right (g : Grid) (p : GridPos) : Option GridPos :=
  (g.above p).bind fun q => g.right q

/-- `Grid::below_right` from `src/grid.rs:773-775`. -/
def Grid.below_right (g : Grid) (p : GridPos) : Option GridPos :=
  (g.below p).bind fun q => g.right q

/-- `Grid::above_left` from `src/grid.rs:777-779`. -/
def Grid.above_left (g : Grid) (p : GridPos) : Option GridPos :=
  (g.above p).bind fun q => g.left q

/-- `Grid::below_left` from `src/grid.rs:781-783`. -/
def Grid.below_left (g : Grid) (p : GridPos) : Option GridPos :=
  (g.below p).bind fun q => g.left q

/-- `List::map` with a running index: the shape of the source's
`iter_mut().enumerate()` loops over `cells`. -/
def mapIdxFrom (f : Nat → Cell → α) : Nat → List Cell → List α
  | _, [] => []
  | i, c :: l => f i c :: mapIdxFrom f (i + 1) l

/-- The corner-node lattice of `src/grid.rs:305-312`: `new_xy_iter(width+1,
height+1, LeftToRight, BottomToTop)` from `src/grid_iterator_2d.rs`,
mapped through `gp`. -/
def Grid.lattice_nodes (g : Grid) : List GridPos :=
  (List.range (g.height + 1)).flatMap fun y =>
    (List.range (g.width + 1)).map fun x => gp (x : Int) (y : Int)

/-- `Grid::node_connects_across_cell` from `src/grid.rs:649-676`.  A cell
horizontally off-grid counts as connecting outward; a cell vertically
off-grid does not; otherwise the cell must be filled, touch the node, and
have its other endpoint still in the live set.  The source's
`get_cell_at_pos(..).unwrap()` (reached only with `cell_pos` inside the
rectangle) is modelled as `false` on `none`, which cannot occur on a
well-formed grid (`cells.length = width * height`). -/
def Grid.node_connects_across_cell (g : Grid) (cell_pos node_pos : GridPos)
    (nodes : List GridPos) : Bool :=
  if ¬ (0 ≤ cell_pos.x ∧ cell_pos.x < (g.width : Int)) then true
  else if ¬ (0 ≤ cell_pos.y ∧ cell_pos.y < (g.height : Int)) then false
  else
    match g.get_cell_at_pos cell_pos with
    | none => false
    | some cell =>
      if ¬ cell.has_corner_node cell_pos node_pos then false
      else
        ((cell.corner_nodes cell_pos).filter fun n => n ≠ node_pos).any
          fun n => nodes.contains n

/-- The per-node neighbour count of `src/grid.rs:315-337`: the four cells
sharing the node as a corner, in the source's order (the cell whose
bottom-left corner is the node, then offsets `(0,1)`, `(1,1)`, `(1,0)`
subtracted). -/
def Grid.node_neighbor_count (g : Grid) (node : GridPos)
    (nodes : List GridPos) : Nat :=
  ([node, node - gp 0 1, node - gp 1 1, node - gp 1 0].filter fun c =>
    g.node_connects_across_cell c node nodes).length

/-- The first node of the live list with fewer than two connections, if
any: one scan of the source's `'nodes` loop (`src/grid.rs:314-344`), which
restarts the scan after every removal. -/
def Grid.find_removable_node (g : Grid) (nodes : List GridPos) : Option GridPos :=
  nodes.find? fun n => g.node_neighbor_count n nodes < 2

/-- The pruning fixpoint of `src/grid.rs:314-344`, with explicit fuel: keep
removing a node with fewer than two connections (restarting the scan) until
none remains.  The source iterates a `HashSet` in nondeterministic order;
because removing a node can only lower other nodes' counts, the iterated
removal reaches the same final set in any order, so a fixed scan order is a
faithful embedding.  Each removal shrinks the list, so `nodes.length + 1`
rounds of fuel always reach the fixpoint. -/
def Grid.prune_nodes (g : Grid) : Nat → List GridPos → List GridPos
  | 0, nodes => nodes
  | fuel + 1, nodes =>
    match g.find_removable_node nodes with
    | some n => g.prune_nodes fuel (nodes.erase n)
    | none => nodes

/-- The live corner-node set after phase A of
`Grid::recalculate_active_cells`. -/
def Grid.live_nodes (g : Grid) : List GridPos :=
  let init := g.lattice_nodes
  g.prune_nodes (init.length + 1) init

/-- `CellStatus` from `src/grid.rs:806-812`. -/
structure CellStatus where
  is_connected_to_left_edge : Bool
  is_connected_to_right_edge : Bool
  is_part_of_a_chain : Bool
  cell_index : Nat
deriving DecidableEq, Repr

/-- The pruning test of `src/grid.rs:364-380`: a filled cell is excluded
from chains (and deactivated) iff one of its corner nodes did not survive
phase A. -/
def Grid.cell_pruned (g : Grid) (nodes : List GridPos) (i : Nat) (c : Cell) : Bool :=
  !c.is_empty &&
    (c.corner_nodes (get_pos_from_index i g.width)).any fun n => !nodes.contains n

/-- The cell updates of the `'cells` loop (`src/grid.rs:348-391`): a filled
cell with a pruned corner node is deactivated immediately. -/
def Grid.prune_deactivate (g : Grid) (nodes : List GridPos) : List Cell :=
  mapIdxFrom (fun i c => if g.cell_pruned nodes i c then c.deactivate else c) 0 g.cells

/-- The status map built by the `'cells` loop (`src/grid.rs:348-391`), as
an association list in cell-index order (the source uses a `HashMap` keyed
by position; index `i` maps to position `get_pos_from_index i width`, a
bijection on `0 .. cells.len()` for positive width). -/
def Grid.initial_statuses (g : Grid) (nodes : List GridPos) :
    List (GridPos × CellStatus) :=
  mapIdxFrom
    (fun i c =>
      (get_pos_from_index i g.width,
       if c.is_empty then ⟨false, false, false, i⟩
       else if g.cell_pruned nodes i c then ⟨false, false, false, i⟩
       else ⟨false, false, true, i⟩))
    0 g.cells

/-- Lookup in the status association list (the source's
`cell_statuses.get(pos)`). -/
def statusLookup (sts : List (GridPos × CellStatus)) (p : GridPos) :
    Option CellStatus :=
  (sts.find? fun e => e.1 = p).map fun e => e.2

/-- The candidate neighbour positions of `src/grid.rs:403-426`: only
right-side neighbours for the left boundary column, only left-side
neighbours for the right boundary column, all eight otherwise, in the
source's order. -/
def Grid.status_neighbors (g : Grid) (cell_pos : GridPos) : List (Option GridPos) :=
  if cell_pos.x = 0 then
    [g.above_right cell_pos, g.right cell_pos, g.below_right cell_pos]
  else if cell_pos.x = (g.width : Int) - 1 then
    [g.left cell_pos, g.above_left cell_pos, g.below_left cell_pos]
  else
    [g.left cell_pos, g.above_left cell_pos, g.above cell_pos,
     g.above_right cell_pos, g.right cell_pos, g.below_right cell_pos,
     g.below cell_pos, g.below_left cell_pos]

/-- The connected-neighbour filter of `src/grid.rs:428-443`: keep the
in-bounds neighbour positions whose cell is geometrically connected to this
one under `Cell::is_connected_to`.  The adjacency passed is always a
compass direction (neighbours are one step away), so the `Same` panic of
`Cell::is_connected_to` cannot fire; its `Option` is read with
default `false`. -/
def Grid.connected_neighbor_positions (g : Grid) (cell_pos : GridPos)
    (cell : Cell) : List GridPos :=
  (((g.status_neighbors cell_pos).filterMap id).filterMap fun np =>
    (g.get_cell_at_pos np).map fun nc => (np, nc)).filterMap
    fun e =>
      if (cell.is_connected_to e.2 (adjacency_of_grid_positions cell_pos e.1)).getD false
      then some e.1 else none

/-- One entry update of the `'edgeChecks` loop body (`src/grid.rs:397-474`):
a chain cell becomes connected to the left edge when a connected neighbour
already is, or when it sits in column 0; symmetrically for the right edge
with column `width - 1`.  Returns the updated status and whether a flag
changed. -/
def Grid.status_step (g : Grid) (all : List (GridPos × CellStatus))
    (cell_pos : GridPos) (st : CellStatus) : CellStatus × Bool :=
  let cell := (g.get_cell_at_pos cell_pos).getD Cell.Empty
  let conn := g.connected_neighbor_positions cell_pos cell
  let leftHit :=
    !st.is_connected_to_left_edge &&
      ((conn.any fun np =>
          ((statusLookup all np).map fun s => s.is_connected_to_left_edge).getD false)
        || cell_pos.x = 0)
  let st1 := if leftHit then { st with is_connected_to_left_edge := true } else st
  let rightHit :=
    !st1.is_connected_to_right_edge &&
      ((conn.any fun np =>
          ((statusLookup all np).map fun s => s.is_connected_to_right_edge).getD false)
        || cell_pos.x = (g.width : Int) - 1)
  let st2 := if rightHit then { st1 with is_connected_to_right_edge := true } else st1
  (st2, leftHit || rightHit)

/-- One full pass of the `'edgeChecks` loop (`src/grid.rs:395-479`),
processing entries in list order; updates made earlier in the pass are
visible to later entries, as with the source's in-place `RefCell` updates.
Returns the updated list and whether any flag changed.  The source
iterates a `HashMap` in nondeterministic order; the propagation only ever
turns flags on, so the loop's fixpoint is the same least fixpoint in any
order. -/
def Grid.status_pass (g : Grid) :
    List (GridPos × CellStatus) → List (GridPos × CellStatus) → Bool →
    List (GridPos × CellStatus) × Bool
  | done, [], changed => (done.reverse, changed)
  | done, (p, st) :: rest, changed =>
    if !st.is_part_of_a_chain then
      g.status_pass ((p, st) :: done) rest changed
    else
      let res := g.status_step (done ++ (p, st) :: rest) p st
      g.status_pass ((p, res.1) :: done) rest (changed || res.2)

/-- The `'edgeChecks` fixpoint with explicit fuel: repeat passes until one
makes no change.  Each changing pass sets at least one of the `2 * length`
flags, so `2 * length + 1` passes always converge. -/
def Grid.status_loop (g : Grid) : Nat → List (GridPos × CellStatus) →
    List (GridPos × CellStatus)
  | 0, sts => sts
  | fuel + 1, sts =>
    let res := g.status_pass [] sts false
    if res.2 then g.status_loop fuel res.1 else res.1

/-- `Grid::recalculate_active_cells` from `src/grid.rs:304-491` (the
node-pruning generation): phase A prunes dangling corner nodes, the
`'cells` loop deactivates fragments with pruned corners and seeds the
status map, the `'edgeChecks` loop propagates edge-connectivity to a
fixpoint, and the final loop activates exactly the cells connected to both
edges. -/
def Grid.recalculate_active_cells (g : Grid) : Grid :=
  let nodes := g.live_nodes
  let cells2 := g.prune_deactivate nodes
  let g2 : Grid := { g with cells := cells2 }
  let sts0 := g.initial_statuses nodes
  let stsF := g2.status_loop (2 * sts0.length + 1) sts0
  let cells3 :=
    mapIdxFrom
      (fun i c =>
        match statusLookup stsF (get_pos_from_index i g.width) with
        | some st =>
          if st.is_connected_to_left_edge && st.is_connected_to_right_edge
          then c.activate else c.deactivate
        | none => c)
      0 cells2
  { g with cells := cells3 }

/-- `Vec::swap` on lists, both indices assumed in range (checked by the
caller, `Grid::swap_cells_by_index`). -/
def listSwap (l : List Cell) (i j : Nat) : List Cell :=
  match l.get? i, l.get? j with
  | some a, some b => (l.set i b).set j a
  | _, _ => l

/-- `Grid::swap_cells_by_index` from `src/grid.rs:626-647`. -/
def Grid.swap_cells_by_index (g : Grid) (cell_index_a cell_index_b : Nat) :
    Except GunpeyLibError Grid :=
  if cell_index_a = cell_index_b then
    .error (.CantSwapSameIndex cell_index_a cell_index_b)
  else if cell_index_a < g.cells.length ∧ cell_index_b < g.cells.length then
    .ok { g with cells := listSwap g.cells cell_index_a cell_index_b }
  else .error (.CantSwapBadIndex cell_index_a cell_index_b)

/-- `Grid::swap_cells` from `src/grid.rs:118-140`: reject identical
positions, resolve both linear indices, swap, then recalculate.  An error
leaves the grid untouched (the functional embedding returns a grid only in
the `ok` case). -/
def Grid.swap_cells (g : Grid) (cell_pos_a cell_pos_b : GridPos) :
    Except GunpeyLibError Grid :=
  if cell_pos_a = cell_pos_b then
    .error (.CantSwapSamePositon cell_pos_a cell_pos_b)
  else
    match g.get_index_from_pos cell_pos_a, g.get_index_from_pos cell_pos_b with
    | some ia, some ib =>
      match g.swap_cells_by_index ia ib with
      | .ok g2 => .ok g2.recalculate_active_cells
      | .error e => .error e
    | _, _ => .error (.CantSwapBadPosition cell_pos_a cell_pos_b)

/-- `Grid::set_cell` from `src/grid.rs:142-150`: write the cell at an
in-bounds position and recalculate; silently do nothing otherwise. -/
def Grid.set_cell (g : Grid) (grid_pos : GridPos) (cell : Cell) : Grid :=
  match g.get_index_from_pos grid_pos with
  | some i => (Grid.recalculate_active_cells { g with cells := g.cells.set i cell })
  | none => g

/-- `Grid::pop_top_row` from `src/grid.rs:678-686`: `im::Vector::slice`
destructively removes the range `(height-1)*width .. len` (the top row)
from `cells` and returns it; `height` is left unchanged.  Returns the
popped row together with the mutated grid. -/
def Grid.pop_top_row (g : Grid) : List Cell × Grid :=
  let start_of_last_row := (g.height - 1) * g.width
  (g.cells.drop start_of_last_row,
   { g with cells := g.cells.take start_of_last_row })

/-- `Grid::push_bottom_row` from `src/grid.rs:688-700`: reject a row whose
length differs from the width, otherwise prepend it as the new bottom row
and recalculate. -/
def Grid.push_bottom_row (g : Grid) (new_row : List Cell) :
    Except GunpeyLibError Grid :=
  if new_row.length ≠ g.width then
    .error (.InvalidRowLength new_row.length g.width)
  else
    .ok (Grid.recalculate_active_cells { g with cells := new_row ++ g.cells })

/-- `chunks_exact` on lists, with fuel (each step consumes at least one
element, so `l.length` steps suffice): consecutive chunks of exactly `w`
elements, dropping the remainder. -/
def chunksExactGo (w : Nat) : Nat → List Cell → List (List Cell)
  | 0, _ => []
  | fuel + 1, l =>
    if 0 < w ∧ w ≤ l.length then l.take w :: chunksExactGo w fuel (l.drop w)
    else []

/-- `chunks_exact` on lists: consecutive chunks of exactly `w` elements,
dropping the remainder. -/
def chunksExact (w : Nat) (l : List Cell) : List (List Cell) :=
  chunksExactGo w l.length l

/-- `Grid::as_active_bitmask` from `src/grid.rs:99-107`: rows in
top-to-bottom render order, each cell's activation as `1`/`0`. -/
def Grid.as_active_bitmask (g : Grid) : List (List Nat) :=
  ((chunksExact g.width g.cells).reverse).map fun row =>
    row.map fun cell => if cell.is_active then 1 else 0

/-- `Grid::new_from_str` from `src/grid.rs:42-66`.  Note the source sets
`width` to `rows[0].len()`, the UTF-8 **byte** length of the first row,
while it builds one cell per **character** (Rust's `split("")` yields the
characters, here `String.data`); for multi-byte shape symbols such as `∧`
these disagree.  Row order is reversed on ingestion (text is top-to-bottom,
storage bottom-to-top). -/
def Grid.new_from_str (grid_str : String) : Grid :=
  let rows := (grid_str.trim.splitOn "\n").map String.trim
  let width := (rows.headD "").utf8ByteSize
  let height := rows.length
  let cells :=
    rows.reverse.flatMap fun row =>
      row.data.map fun c => Cell.from_str (String.singleton c)
  ⟨width, height, cells⟩

/-- Well-formedness of a grid: the data-model invariant of spec §3. -/
def Grid.wf (g : Grid) : Prop := g.cells.length = g.width * g.height

instance (g : Grid) : Decidable g.wf := by unfold Grid.wf; infer_instance

/-! ## Concrete fixtures used by the claims -/

/-- A filled, inactive cell of the given kind (how every textual layout and
`LineFragment::from_char` build cells). -/
def cellOf (k : LineFragmentKind) : Cell := Cell.Filled ⟨k, false⟩

/-- The 3-wide, 2-tall grid of spec §8 scenario 2 (and the repository test
`test_recalculate_active_cells_are_active_1`): bottom row `/.∨`, top row
`.∧.`, stored bottom row first. -/
def gridScenario2 : Grid :=
  ⟨3, 2, [cellOf .RightSlash, .Empty, cellOf .InvertedCaret,
          .Empty, cellOf .Caret, .Empty]⟩

/-- The 1-column, 2-row grid of spec §8 scenario 1: InvertedCaret in the
bottom cell, Caret in the top cell. -/
def gridOneColumn : Grid := ⟨1, 2, [cellOf .InvertedCaret, cellOf .Caret]⟩

/-- A 3×2 grid holding a single inactive Caret in the bottom-left cell. -/
def gridCaretCorner : Grid :=
  ⟨3, 2, [cellOf .Caret, .Empty, .Empty, .Empty, .Empty, .Empty]⟩

/-- A 1×2 grid: Caret in the bottom cell, empty top cell. -/
def gridCaretBelowEmpty : Grid := ⟨1, 2, [cellOf .Caret, .Empty]⟩

/-! ## Helper lemmas -/

theorem Cell.kindOf_activate (c : Cell) : c.activate.kindOf = c.kindOf := by
  cases c <;> rfl

theorem Cell.kindOf_deactivate (c : Cell) : c.deactivate.kindOf = c.kindOf := by
  cases c <;> rfl

theorem length_mapIdxFrom (f : Nat → Cell → α) (i : Nat) (l : List Cell) :
    (mapIdxFrom f i l).length = l.length := by
  induction l generalizing i with
  | nil => rfl
  | cons c l ih => simp [mapIdxFrom, ih]

theorem map_kindOf_mapIdxFrom (f : Nat → Cell → Cell)
    (hf : ∀ i c, (f i c).kindOf = c.kindOf) (i : Nat) (l : List Cell) :
    (mapIdxFrom f i l).map Cell.kindOf = l.map Cell.kindOf := by
  induction l generalizing i with
  | nil => rfl
  | cons c l ih => simp [mapIdxFrom, hf, ih]

theorem recalculate_width (g : Grid) :
    g.recalculate_active_cells.width = g.width := rfl

theorem recalculate_height (g : Grid) :
    g.recalculate_active_cells.height = g.height := rfl

theorem recalculate_cells_length (g : Grid) :
    g.recalculate_active_cells.cells.length = g.cells.length := by
  unfold Grid.recalculate_active_cells Grid.prune_deactivate
  simp [length_mapIdxFrom]

theorem recalculate_kinds (g : Grid) :
    g.recalculate_active_cells.cells.map Cell.kindOf = g.cells.map Cell.kindOf := by
  have haux : ∀ (sts : List (GridPos × CellStatus)) (w : Nat) (cs : List Cell),
      (mapIdxFrom (fun i c =>
        match statusLookup sts (get_pos_from_index i w) with
        | some st =>
          if st.is_connected_to_left_edge && st.is_connected_to_right_edge
          then c.activate else c.deactivate
        | none => c) 0 cs).map Cell.kindOf = cs.map Cell.kindOf := by
    intro sts w cs
    apply map_kindOf_mapIdxFrom
    intro i c
    cases statusLookup sts (get_pos_from_index i w) with
    | none => rfl
    | some st =>
      simp only []
      split <;> simp [Cell.kindOf_activate, Cell.kindOf_deactivate]
  have haux2 : ∀ nodes, (Grid.prune_deactivate g nodes).map Cell.kindOf
      = g.cells.map Cell.kindOf := by
    intro nodes
    unfold Grid.prune_deactivate
    apply map_kindOf_mapIdxFrom
    intro i c
    split <;> simp [Cell.kindOf_deactivate]
  unfold Grid.recalculate_active_cells
  simp only [haux, haux2]

theorem listSwap_length (l : List Cell) (i j : Nat) :
    (listSwap l i j).length = l.length := by
  unfold listSwap
  split <;> simp

theorem swap_cells_ok_shape {g : Grid} {a b : GridPos} {g2 : Grid}
    (h : g.swap_cells a b = .ok g2) :
    g2.width = g.width ∧ g2.height = g.height ∧
      g2.cells.length = g.cells.length := by
  unfold Grid.swap_cells Grid.swap_cells_by_index at h
  split at h
  · exact absurd h (by simp)
  · split at h
    · split at h
      · rename_i gmid heq
        simp only [Except.ok.injEq] at h
        subst h
        split at heq
        · exact absurd heq (by simp)
        · split at heq
          · simp only [Except.ok.injEq] at heq
            subst heq
            refine ⟨rfl, rfl, ?_⟩
            rw [recalculate_cells_length]
            exact listSwap_length ..
          · exact absurd heq (by simp)
      · exact absurd h (by simp)
    · exact absurd h (by simp)

theorem pop_push_lemma (g : Grid) (hwf : g.wf) (hh : 1 ≤ g.height) :
    (g.pop_top_row).2.push_bottom_row (g.pop_top_row).1 =
      .ok (Grid.recalculate_active_cells
        ⟨g.width, g.height, (g.pop_top_row).1 ++ (g.pop_top_row).2.cells⟩) ∧
    ((g.pop_top_row).1 ++ (g.pop_top_row).2.cells).length = g.width * g.height := by
  have hsum : (g.height - 1) * g.width + g.width = g.width * g.height := by
    calc (g.height - 1) * g.width + g.width
        = ((g.height - 1) + 1) * g.width := by ring
      _ = g.height * g.width := by rw [Nat.sub_add_cancel hh]
      _ = g.width * g.height := Nat.mul_comm ..
  have hle : (g.height - 1) * g.width ≤ g.cells.length := by
    rw [hwf]
    omega
  have hplen : (g.cells.drop ((g.height - 1) * g.width)).length = g.width := by
    rw [List.length_drop, hwf]
    omega
  have htlen : (g.cells.take ((g.height - 1) * g.width)).length
      = (g.height - 1) * g.width := by
    rw [List.length_take]
    exact Nat.min_eq_left hle
  constructor
  · unfold Grid.pop_top_row Grid.push_bottom_row
    simp only []
    rw [if_neg]
    simp only [hplen, ne_eq, not_not]
  · simp only [Grid.pop_top_row, List.length_append, hplen, htlen]
    omega

/-! ## Claim theorems -/

/-- C1: the claim states that the shape-compatibility predicate used by
activation recalculation (`Cell::is_connected_to`) follows the
corner-coincidence rule, and in particular connects two Carets across
`Left`/`Right`.  The code disagrees with the claim, with the repository's
own test `test_edges_should_be_detected_2` (which expects two horizontally
adjacent Carets to form an edge), and with the standalone predicate
`are_line_fragments_connecting`: `Cell::is_connected_to` returns `false`
for every Caret–Caret pair.  The final conjunct checks that the standalone
predicate equals the corner-coincidence rule on all eight compass
directions, exhibiting the rule the cell-level table was meant to
implement. -/
theorem C1_recalculation_table_contradicts_corner_rule :
    Cell.is_connected_to (.Filled ⟨.Caret, false⟩) (.Filled ⟨.Caret, false⟩)
      .Right = some false ∧
    Cell.is_connected_to (.Filled ⟨.Caret, false⟩) (.Filled ⟨.Caret, false⟩)
      .Left = some false ∧
    spec_corner_connects .Caret .Right .Caret = true ∧
    spec_corner_connects .Caret .Left .Caret = true ∧
    are_line_fragments_connecting ⟨.Caret, false⟩ .Right ⟨.Caret, false⟩ = true ∧
    (∀ (ka kb : LineFragmentKind) (aa ab : Bool) (d : Adjacency),
      are_line_fragments_connecting ⟨ka, aa⟩ d ⟨kb, ab⟩ =
        match d with
        | .Same => true
        | .NotAdjacent => false
        | _ => spec_corner_connects ka d kb) := by
  decide

/-- C7: the claim states the shape-compatibility predicate is total with no
panic on every pair of filled cells and returns `true` for `Same`.  The
cell-level predicate `Cell::is_connected_to` panics (`unreachable!`,
modelled as `none`) on `Same` for two filled cells, so the claim fails
there; this counterexample evaluates that input. -/
theorem C7_counterexample :
    Cell.is_connected_to (.Filled ⟨.Caret, false⟩) (.Filled ⟨.Caret, false⟩)
      .Same = none ∧
    (none : Option Bool) ≠ some true := by
  decide

/-- C7 (amended): the standalone predicate `are_line_fragments_connecting`
is total, panic-free, and returns `true` for `Same`; the cell-level
predicate `Cell::is_connected_to` returns a boolean for every pair of
filled cells and every adjacency except `Same`, where (and only where) it
panics. -/
theorem C7_amended :
    (∀ (ka kb : LineFragmentKind) (aa ab : Bool),
      are_line_fragments_connecting ⟨ka, aa⟩ .Same ⟨kb, ab⟩ = true) ∧
    (∀ (ka kb : LineFragmentKind) (aa ab : Bool) (d : Adjacency),
      (Cell.is_connected_to (.Filled ⟨ka, aa⟩) (.Filled ⟨kb, ab⟩) d).isSome
        ↔ d ≠ .Same) := by
  decide

/-- C10: `are_line_fragments_connecting` is symmetric under direction
reversal — for every pair of fragments and every adjacency (in particular
each of the eight compass directions), `are(a, d, b) = are(b, opposite d,
a)`. -/
theorem C10_direction_reversal_symmetry :
    ∀ (ka kb : LineFragmentKind) (aa ab : Bool) (d : Adjacency),
      are_line_fragments_connecting ⟨ka, aa⟩ d ⟨kb, ab⟩ =
        are_line_fragments_connecting ⟨kb, ab⟩ d.opposite ⟨ka, aa⟩ := by
  decide

/-- C9: activation recalculation only rewrites activation flags — width,
height, and every cell's emptiness/fragment kind are unchanged, and no
empty cell is active afterwards. -/
theorem C9_recalculation_frame (g : Grid) :
    g.recalculate_active_cells.width = g.width ∧
    g.recalculate_active_cells.height = g.height ∧
    g.recalculate_active_cells.cells.map Cell.kindOf = g.cells.map Cell.kindOf ∧
    (g.recalculate_active_cells.cells.all fun c =>
      !(c.is_empty && c.is_active)) = true := by
  refine ⟨rfl, rfl, recalculate_kinds g, ?_⟩
  rw [List.all_eq_true]
  intro c _
  cases c <;> rfl

/-- C2: on the 3-wide, 2-tall grid with bottom row `/.∨` and top row `.∧.`
(all fragments inactive), activation recalculation produces the bitmask
`[[0,1,0],[1,0,1]]` in top-to-bottom render order. -/
theorem C2_scenario2_bitmask :
    gridScenario2.recalculate_active_cells.as_active_bitmask
      = [[0, 1, 0], [1, 0, 1]] := by
  decide

/-- C3: the claim states every swap touching a position outside the grid
rectangle fails with `OutOfBounds` and leaves the grid unchanged.  On the
3×2 grid with one Caret at the bottom-left, swapping position `(3,0)` —
whose `x` is beyond the width — with `(0,0)` instead succeeds (its linear
index `3 + 3*0 = 3` is in range and aliases cell `(0,1)`) and moves the
Caret. -/
theorem C3_counterexample :
    ((gridCaretCorner.width : Int) ≤ (gp 3 0).x) ∧
    (gridCaretCorner.swap_cells (gp 3 0) (gp 0 0)).toOption =
      some ⟨3, 2, [.Empty, .Empty, .Empty, Cell.Filled ⟨.Caret, false⟩,
                   .Empty, .Empty]⟩ ∧
    (⟨3, 2, [.Empty, .Empty, .Empty, Cell.Filled ⟨.Caret, false⟩,
             .Empty, .Empty]⟩ : Grid) ≠ gridCaretCorner := by
  decide

/-- C3 (amended): `swap_cells` on two distinct positions returns the
`CantSwapBadPosition` (out-of-bounds) error — leaving the grid untouched —
exactly when a position's **linear index** `x + width*y` falls outside
`0 .. cells.len()`; a position outside the rectangle whose linear index is
still in range is not rejected. -/
theorem C3_amended (g : Grid) (a b : GridPos) (hne : a ≠ b)
    (hout : g.get_index_from_pos a = none ∨ g.get_index_from_pos b = none) :
    g.swap_cells a b = .error (.CantSwapBadPosition a b) := by
  unfold Grid.swap_cells
  rw [if_neg hne]
  rcases hout with h | h <;>
    cases hA : g.get_index_from_pos a <;>
    cases hB : g.get_index_from_pos b <;>
    simp_all

theorem C3_witness :
    ((gp 5 5 : GridPos) ≠ gp 0 0) ∧
    ((Grid.new 2 2).get_index_from_pos (gp 5 5) = none) ∧
    (Grid.new 2 2).swap_cells (gp 5 5) (gp 0 0) =
      .error (.CantSwapBadPosition (gp 5 5) (gp 0 0)) :=
  ⟨by decide, by decide,
   C3_amended (Grid.new 2 2) (gp 5 5) (gp 0 0) (by decide) (Or.inl (by decide))⟩

/-- C4: the claim states that `pop_top_row` followed by `push_bottom_row`
with the popped row restores the original cell layout.  On the 1×2 grid
with a Caret below an empty cell, the pair of calls instead moves the
empty (former top) row to the bottom and the Caret row up: the kinds
layout changes from `[Caret, empty]` to `[empty, Caret]`. -/
theorem C4_counterexample :
    ((gridCaretBelowEmpty.pop_top_row).2.push_bottom_row
        (gridCaretBelowEmpty.pop_top_row).1).toOption =
      some ⟨1, 2, [.Empty, Cell.Filled ⟨.Caret, true⟩]⟩ ∧
    gridCaretBelowEmpty.cells.map Cell.kindOf = [some .Caret, none] ∧
    ([Cell.Empty, Cell.Filled ⟨.Caret, true⟩].map Cell.kindOf
      = [none, some .Caret]) ∧
    ([none, some LineFragmentKind.Caret] ≠
      ([some LineFragmentKind.Caret, none] : List (Option LineFragmentKind))) := by
  decide

/-- C4 (amended): on a well-formed grid with at least one row,
`pop_top_row` followed by `push_bottom_row` with the popped row succeeds
and yields the grid with its rows rotated, not the original: the cell
layout (kinds/emptiness) equals the popped (former top) row prepended to
the remaining cells, with dimensions preserved and only activation flags
recomputed; the original layout is restored only when that rotation fixes
it. -/
theorem C4_amended (g : Grid) (hwf : g.wf) (hh : 1 ≤ g.height) :
    ∃ g2, (g.pop_top_row).2.push_bottom_row (g.pop_top_row).1 = .ok g2 ∧
      g2.width = g.width ∧ g2.height = g.height ∧
      g2.cells.map Cell.kindOf =
        ((g.pop_top_row).1 ++ (g.pop_top_row).2.cells).map Cell.kindOf := by
  obtain ⟨h1, -⟩ := pop_push_lemma g hwf hh
  exact ⟨_, h1, rfl, rfl, recalculate_kinds _⟩

theorem C4_witness :
    gridCaretBelowEmpty.wf ∧ 1 ≤ gridCaretBelowEmpty.height ∧
    (∃ g2, (gridCaretBelowEmpty.pop_top_row).2.push_bottom_row
        (gridCaretBelowEmpty.pop_top_row).1 = .ok g2 ∧
      g2.width = gridCaretBelowEmpty.width ∧
      g2.height = gridCaretBelowEmpty.height ∧
      g2.cells.map Cell.kindOf =
        ((gridCaretBelowEmpty.pop_top_row).1 ++
          (gridCaretBelowEmpty.pop_top_row).2.cells).map Cell.kindOf) :=
  ⟨by decide, by decide, C4_amended gridCaretBelowEmpty (by decide) (by decide)⟩

/-- C5: the claim states `cells.length = width * height` holds for every
grid reachable through the public operations, including immediately after
`pop_top_row`.  On the freshly constructed 1×2 grid, `pop_top_row` removes
the top row's cells but leaves `height` unchanged, so the invariant fails
at that state: one cell remains while `width * height = 2`. -/
theorem C5_counterexample :
    ((Grid.new 1 2).pop_top_row).2.cells.length = 1 ∧
    ((Grid.new 1 2).pop_top_row).2.width * ((Grid.new 1 2).pop_top_row).2.height
      = 2 ∧
    ¬ ((Grid.new 1 2).pop_top_row).2.wf := by
  decide

/-- C5 (amended): the invariant `cells.length = width * height` holds for
`Grid::new` and is preserved by `swap_cells`, `set_cell`, and by
`pop_top_row` immediately followed by `push_bottom_row` of the popped row —
but not by `pop_top_row` alone, after which `cells.length =
(height - 1) * width` while `height` is unchanged (and symmetrically a bare
`push_bottom_row` grows `cells` past the invariant). -/
theorem C5_amended :
    (∀ w h, (Grid.new w h).wf) ∧
    (∀ (g : Grid) (a b : GridPos) (g2 : Grid),
      g.wf → g.swap_cells a b = .ok g2 → g2.wf) ∧
    (∀ (g : Grid) (p : GridPos) (c : Cell), g.wf → (g.set_cell p c).wf) ∧
    (∀ g : Grid, g.wf → 1 ≤ g.height →
      ∃ g2, (g.pop_top_row).2.push_bottom_row (g.pop_top_row).1 = .ok g2 ∧
        g2.wf) ∧
    (∀ g : Grid, g.wf →
      (g.pop_top_row).2.cells.length = (g.height - 1) * g.width) := by
  refine ⟨?_, ?_, ?_, ?_, ?_⟩
  · intro w h
    simp [Grid.new, Grid.wf]
  · intro g a b g2 hwf hok
    obtain ⟨hw, hh, hl⟩ := swap_cells_ok_shape hok
    unfold Grid.wf
    rw [hw, hh, hl, hwf]
  · intro g p c hwf
    unfold Grid.set_cell
    split
    · unfold Grid.wf
      rw [recalculate_cells_length]
      simpa using hwf
    · exact hwf
  · intro g hwf hh
    obtain ⟨h1, h2⟩ := pop_push_lemma g hwf hh
    refine ⟨_, h1, ?_⟩
    unfold Grid.wf
    rw [recalculate_cells_length]
    exact h2
  · intro g hwf
    have hlen : g.cells.length = g.width * g.height := hwf
    simp only [Grid.pop_top_row, List.length_take, hlen]
    exact Nat.min_eq_left (by
      calc (g.height - 1) * g.width ≤ g.height * g.width :=
            Nat.mul_le_mul_right _ (Nat.sub_le ..)
        _ = g.width * g.height := Nat.mul_comm ..)

theorem C5_witness :
    (Grid.new 2 2).wf ∧
    ((Grid.new 2 2).set_cell (gp 0 0) (cellOf .Caret)).wf ∧
    (⟨2, 2, [cellOf .Caret, .Empty, .Empty, .Empty]⟩ : Grid).swap_cells
        (gp 0 0) (gp 1 0) =
      .ok ⟨2, 2, [.Empty, cellOf .Caret, .Empty, .Empty]⟩ ∧
    (⟨2, 2, [.Empty, cellOf .Caret, .Empty, .Empty]⟩ : Grid).wf :=
  ⟨C5_amended.1 2 2,
   C5_amended.2.2.1 (Grid.new 2 2) (gp 0 0) (cellOf .Caret) (C5_amended.1 2 2),
   rfl,
   C5_amended.2.1 ⟨2, 2, [cellOf .Caret, .Empty, .Empty, .Empty]⟩
     (gp 0 0) (gp 1 0) ⟨2, 2, [.Empty, cellOf .Caret, .Empty, .Empty]⟩
     (by decide) rfl⟩

/-- C6: the claim states that on the 1-column, 2-row grid with Caret over
InvertedCaret both cells recalculate to inactive.  The code instead
activates both: with width 1 the single column is both the left and the
right boundary, every node column is a border column (never pruned), and
both chain cells are seeded as connected to both edges.  (Additionally,
`Grid::new_from_str` applied to the layout `"∧\n∨"` cannot build this grid
at all: it takes the width from the first row's UTF-8 byte length, and `∧`
is 3 bytes but one character.) -/
theorem C6_counterexample :
    gridOneColumn.recalculate_active_cells.as_active_bitmask ≠ [[0], [0]] ∧
    "∧".utf8ByteSize = 3 ∧ "∧".data.length = 1 := by
  decide

/-- C6 (amended): on the 1-column, 2-row grid with Caret on top and
InvertedCaret on the bottom, activation recalculation marks **both** cells
active (bitmask `[[1],[1]]`): for width 1, column `x = 0` is simultaneously
the left and the right boundary, so every chain-eligible cell is seeded as
connected to both edges. -/
theorem C6_amended :
    gridOneColumn.recalculate_active_cells.as_active_bitmask = [[1], [1]] := by
  decide

/-- C8: the claim quantifies over all integer coordinate pairs, but at
`p = (-1, 0)` on a 2×2 grid `right` answers `some (0, 0)` (it only compares
`x` against `width - 1`) while `left (0, 0)` is `none` (the `x = 0`
boundary), so `left` does not invert `right` there. -/
theorem C8_counterexample :
    (Grid.new 2 2).right (gp (-1) 0) = some (gp 0 0) ∧
    (Grid.new 2 2).left (gp 0 0) = none := by
  decide

/-- C8 (amended): `right`/`left` are inverse for every position whose `x`
is not `-1`: if `right p = some q` then `left q = some p`.  (At `x = -1`
the successor column is the `x = 0` boundary, where `left` answers
`none`.) -/
theorem C8_amended (g : Grid) (p q : GridPos) (hx : p.x ≠ -1)
    (h : g.right p = some q) : g.left q = some p := by
  obtain ⟨py, px⟩ := p
  unfold Grid.right at h
  split at h
  · exact absurd h (by simp)
  · simp only [Option.some.injEq] at h
    subst h
    simp only [GridPos.mk.injEq] at hx ⊢
    unfold Grid.left
    split
    · rename_i h0
      simp only [GridPos.mk.injEq] at h0
      exact absurd (by omega : px = -1) (by simpa using hx)
    · simp only [Option.some.injEq, GridPos.mk.injEq]
      exact ⟨by trivial, by omega⟩

theorem C8_witness :
    ((gp 0 0 : GridPos).x ≠ -1) ∧
    (Grid.new 2 2).right (gp 0 0) = some (gp 1 0) ∧
    (Grid.new 2 2).left (gp 1 0) = some (gp 0 0) :=
  ⟨by decide, by decide,
   C8_amended (Grid.new 2 2) (gp 0 0) (gp 1 0) (by decide) (by decide)⟩

end Gunpey
